import Mathlib

/-!
Shallow embedding of `media::WebRtcPassThroughVideoDecoder`
(`media/webrtc/neva/webrtc_pass_through_video_decoder.cc`) and proofs about
its admission, queueing, drain and lifecycle logic.

The decoder state collects the member variables of the class that the
decode-bridge logic reads and writes: `media_decoder_available_`,
`key_frame_required_`, `video_codec_type_`, `frame_size_`,
`pending_frames_`, `decode_timestamps_`, `consecutive_error_count_`.
Callback delivery to the registered `webrtc::DecodedImageCallback` is made
observable as the list of timestamps handed to
`decode_complete_callback_->Decoded(...)`.
-/

namespace WebRtcPassThrough

/-- The subset of `webrtc::VideoCodecType` the decoder distinguishes. -/
inductive VideoCodecType where
  | VP8
  | VP9
  | H264
  | Generic
  deriving DecidableEq, Repr

/-- `webrtc::VideoFrameType`: key frame or delta frame. -/
inductive FrameType where
  | Key
  | Delta
  deriving DecidableEq, Repr

/-- The `WEBRTC_VIDEO_CODEC_*` status codes returned by the decoder entry
points: `OK`, `ERROR`, `FALLBACK_SOFTWARE`, `NO_OUTPUT`, `ERR_PARAMETER`,
`UNINITIALIZED`. -/
inductive Status where
  | Ok
  | Error
  | FallbackSoftware
  | NoOutput
  | ErrParameter
  | Uninitialized
  deriving DecidableEq, Repr

/-- The fields of `webrtc::EncodedImage` that `Decode` reads:
`_frameType`, `SpatialIndex()`, `_completeFrame`, `_encodedWidth`,
`_encodedHeight`, `Timestamp()` (the timestamp in microseconds after
`base::TimeDelta::FromMicroseconds`). -/
structure EncodedImage where
  frameType : FrameType
  spatialIndex : Option Nat
  completeFrame : Bool
  encodedWidth : Nat
  encodedHeight : Nat
  timestamp : Nat
  deriving DecidableEq, Repr

/-- The `media::VideoFrame` that `Decode` builds with
`VideoFrame::WrapExternalData` and queues in `pending_frames_`: the coded
size comes from `frame_size_`, the timestamp from the encoded image, and
the `KEY_FRAME` metadata flag from the frame type. -/
structure VideoFrame where
  width : Nat
  height : Nat
  timestamp : Nat
  keyFrame : Bool
  deriving DecidableEq, Repr

/-- `kMaxPendingFrames = 8`: maximum number of frames queued in
`pending_frames_`. -/
def kMaxPendingFrames : Nat := 8

/-- `kMaxDecodeHistory = 32`: maximum number of timestamps maintained in
`decode_timestamps_`. -/
def kMaxDecodeHistory : Nat := 32

/-- `kMaxConsecutiveErrors = 60`: maximum number of consecutive errors
before requesting fallback to software decode. -/
def kMaxConsecutiveErrors : Nat := 60

/-- The mutable members of `WebRtcPassThroughVideoDecoder` used by the
decode-bridge logic. -/
structure DecoderState where
  media_decoder_available : Bool
  key_frame_required : Bool
  video_codec_type : VideoCodecType
  frame_width : Nat
  frame_height : Nat
  pending_frames : List VideoFrame
  decode_timestamps : List Nat
  consecutive_error_count : Nat
  deriving DecidableEq, Repr

/-- The settings pointer handed to `InitDecode`; the decoder reads only
`codec_settings->codecType`. A null pointer is `Option.none`. -/
structure WebrtcVideoCodec where
  codecType : VideoCodecType
  deriving DecidableEq, Repr

/-- `InitDecode` (lines 115-129): null settings are rejected with
`WEBRTC_VIDEO_CODEC_ERR_PARAMETER`; otherwise the key-frame requirement is
armed, the codec type recorded, and the result is `OK` when
`media_decoder_available_` holds and `UNINITIALIZED` otherwise. -/
def InitDecode (s : DecoderState) (codec_settings : Option WebrtcVideoCodec)
    (number_of_cores : Nat) : Status × DecoderState :=
  match codec_settings with
  | none => (Status.ErrParameter, s)
  | some cs =>
    let s1 : DecoderState :=
      { s with key_frame_required := true, video_codec_type := cs.codecType }
    (if s1.media_decoder_available = true then Status.Ok else Status.Uninitialized, s1)

/-- The state mutations `Decode` performs after passing the key-frame gate
and before the queue step: `key_frame_required_ = false` (line 168; a
no-op when the requirement was already clear) and, for a key frame, the
update of `frame_size_` from the encoded dimensions (lines 171-177). -/
def stateAfterGate (s : DecoderState) (img : EncodedImage) : DecoderState :=
  let s1 : DecoderState := { s with key_frame_required := false }
  if img.frameType = FrameType.Key then
    { s1 with frame_width := img.encodedWidth, frame_height := img.encodedHeight }
  else s1

/-- The `media::VideoFrame` wrapped around the copied payload (lines
179-205): coded size `frame_size_` (already updated for a key frame),
timestamp from the image, `KEY_FRAME` metadata from the frame type. -/
def mkEncodedFrame (s : DecoderState) (img : EncodedImage) : VideoFrame :=
  { width := s.frame_width
    height := s.frame_height
    timestamp := img.timestamp
    keyFrame := decide (img.frameType = FrameType.Key) }

/-- The queue step of `Decode` (lines 207-236), entered once a frame was
successfully wrapped: if `pending_frames_.size() >= kMaxPendingFrames`,
the whole queue is cleared, the key-frame requirement re-armed and
`consecutive_error_count_` incremented; when the incremented counter
exceeds `kMaxConsecutiveErrors` the timestamp history is also cleared and
`FALLBACK_SOFTWARE` returned, otherwise `ERROR`. Below capacity the frame
is pushed to the back and `OK` returned. -/
def decodeQueueStep (s2 : DecoderState) (img : EncodedImage) : Status × DecoderState :=
  if kMaxPendingFrames ≤ s2.pending_frames.length then
    if kMaxConsecutiveErrors < s2.consecutive_error_count + 1 then
      (Status.FallbackSoftware,
        { s2 with pending_frames := []
                  key_frame_required := true
                  consecutive_error_count := s2.consecutive_error_count + 1
                  decode_timestamps := [] })
    else
      (Status.Error,
        { s2 with pending_frames := []
                  key_frame_required := true
                  consecutive_error_count := s2.consecutive_error_count + 1 })
  else
    (Status.Ok, { s2 with pending_frames := s2.pending_frames ++ [mkEncodedFrame s2 img] })

/-- `Decode` (lines 131-237). The checks in source order: software
fallback when `media_decoder_available_` is false; software fallback for
VP9 with spatial index above zero; `ERROR` for missing or incomplete
frames; `ERROR` for a non-key frame while the key-frame requirement is
armed; then the gate mutations, the frame wrap, and the queue step.
`wrap_ok` models the success of `media::VideoFrame::WrapExternalData`
(code outside this translation unit); when it fails the source returns
`WEBRTC_VIDEO_CODEC_NO_OUTPUT`. -/
def Decode (s : DecoderState) (img : EncodedImage) (missing_frames : Bool)
    (wrap_ok : Bool) : Status × DecoderState :=
  if s.media_decoder_available = false then
    (Status.FallbackSoftware, s)
  else if s.video_codec_type = VideoCodecType.VP9 ∧ img.spatialIndex.getD 0 > 0 then
    (Status.FallbackSoftware, s)
  else if missing_frames = true ∨ img.completeFrame = false then
    (Status.Error, s)
  else if s.key_frame_required = true ∧ ¬ img.frameType = FrameType.Key then
    (Status.Error, s)
  else if wrap_ok = false then
    (Status.NoOutput, stateAfterGate s img)
  else
    decodeQueueStep (stateAfterGate s img) img

/-- The eviction loop of `DecodeOnMediaThread` (lines 273-274):
`while (decode_timestamps_.size() >= kMaxDecodeHistory)
decode_timestamps_.pop_front();`. -/
def evictOldest : List Nat → List Nat
  | [] => []
  | t :: rest =>
    if kMaxDecodeHistory ≤ (t :: rest).length then evictOldest rest
    else t :: rest

/-- Recording one timestamp into `decode_timestamps_` (lines 273-276):
evict the oldest entries while at capacity, then `push_back`. -/
def recordTimestamp (hist : List Nat) (ts : Nat) : List Nat :=
  evictOldest hist ++ [ts]

/-- `ReturnEncodedFrame` (lines 283-304): when the frame timestamp is not
in `decode_timestamps_` the frame is discarded and no callback fires
(`none` delivered); otherwise `decode_complete_callback_->Decoded` is
invoked (`some` of the delivered timestamp) and
`consecutive_error_count_` is reset to zero. -/
def ReturnEncodedFrame (s : DecoderState) (f : VideoFrame) : DecoderState × Option Nat :=
  if s.decode_timestamps.contains f.timestamp = false then
    (s, none)
  else
    ({ s with consecutive_error_count := 0 }, some f.timestamp)

/-- One iteration of the drain loop of `DecodeOnMediaThread` (lines
269-279): record the frame timestamp into the history (lines 272-276),
then hand the frame to `ReturnEncodedFrame`. -/
def drainStep (s : DecoderState) (f : VideoFrame) : DecoderState × Option Nat :=
  ReturnEncodedFrame
    { s with decode_timestamps := recordTimestamp s.decode_timestamps f.timestamp } f

/-- The drain loop of `DecodeOnMediaThread` (lines 269-280): for each
pending frame in order, perform `drainStep`. The second component
collects the timestamps delivered to the completion callback, in
delivery order. -/
def drainLoop : DecoderState → List VideoFrame → DecoderState × List Nat
  | s, [] => (s, [])
  | s, f :: rest =>
    ((drainLoop (drainStep s f).1 rest).1,
     (drainStep s f).2.toList ++ (drainLoop (drainStep s f).1 rest).2)

/-- `DecodeOnMediaThread` (lines 262-281): atomically swap out the whole
`pending_frames_` queue, then process the swapped-out frames in FIFO
order. -/
def DecodeOnMediaThread (s : DecoderState) : DecoderState × List Nat :=
  drainLoop { s with pending_frames := [] } s.pending_frames

/-- `Release` (lines 247-256): clears `pending_frames_` and
`decode_timestamps_`; returns `OK` when `media_decoder_available_` holds,
`UNINITIALIZED` otherwise. -/
def Release (s : DecoderState) : Status × DecoderState :=
  let s1 : DecoderState := { s with pending_frames := [], decode_timestamps := [] }
  (if s.media_decoder_available = true then Status.Ok else Status.Uninitialized, s1)

/-- The `VideoFrameMetadata::StatusType` values `OnMediaPlayerNotifyCb`
distinguishes. -/
inductive StatusType where
  | PipelineError
  | KeyFrameRequest
  | Other
  deriving DecidableEq, Repr

/-- `OnMediaPlayerNotifyCb` (lines 306-320): a pipeline error makes the
media decoder unavailable; a key-frame request re-arms the key-frame
requirement; anything else is ignored. -/
def OnMediaPlayerNotifyCb (s : DecoderState) (t : StatusType) : DecoderState :=
  match t with
  | StatusType.PipelineError => { s with media_decoder_available := false }
  | StatusType.KeyFrameRequest => { s with key_frame_required := true }
  | StatusType.Other => s

/-- Modelled from the spec: the freshly constructed decoder (the header
with the member initializers is not among the translated sources) starts
with the hardware path available, the key-frame requirement armed
("Always start with a complete key frame"), empty queue and history, and
a zero consecutive-error counter. -/
def initState (codec : VideoCodecType) : DecoderState :=
  { media_decoder_available := true
    key_frame_required := true
    video_codec_type := codec
    frame_width := 0
    frame_height := 0
    pending_frames := []
    decode_timestamps := []
    consecutive_error_count := 0 }

/-- Folding a list of encoded images through `Decode` (no missing frames,
wrapping always succeeds), keeping only the final state. -/
def runDecodes (s : DecoderState) (inputs : List EncodedImage) : DecoderState :=
  inputs.foldl (fun st img => (Decode st img false true).2) s

/-- A complete key frame with the given timestamp. -/
def keyImg (ts : Nat) : EncodedImage :=
  { frameType := FrameType.Key
    spatialIndex := none
    completeFrame := true
    encodedWidth := 640
    encodedHeight := 480
    timestamp := ts }

/-- A complete delta frame with the given timestamp. -/
def deltaImg (ts : Nat) : EncodedImage :=
  { frameType := FrameType.Delta
    spatialIndex := none
    completeFrame := true
    encodedWidth := 640
    encodedHeight := 480
    timestamp := ts }

/-- The hypotheses under which a `Decode` call reaches the queue step
(lines 207-236): hardware available, not the VP9 multi-spatial-layer
case, frame present and complete, key-frame gate passed, frame wrap
succeeded. -/
abbrev ReachesQueueStep (s : DecoderState) (img : EncodedImage)
    (missing_frames wrap_ok : Bool) : Prop :=
  s.media_decoder_available = true ∧
  ¬(s.video_codec_type = VideoCodecType.VP9 ∧ img.spatialIndex.getD 0 > 0) ∧
  missing_frames = false ∧
  img.completeFrame = true ∧
  (s.key_frame_required = true → img.frameType = FrameType.Key) ∧
  wrap_ok = true

/-- The decoder state reached from `initState` by `InitDecode` with VP8
settings. -/
def postInitState : DecoderState :=
  (InitDecode (initState VideoCodecType.VP8) (some ⟨VideoCodecType.VP8⟩) 1).2

/-- The decoder state after `n` complete overflow cycles (each: one
admitted key frame, seven admitted delta frames, one delta frame hitting
the full queue) with no intervening drain: queue and history empty, the
key-frame requirement re-armed, and the consecutive-error counter at
`n`. -/
def afterCycles (n : Nat) : DecoderState :=
  { media_decoder_available := true
    key_frame_required := true
    video_codec_type := VideoCodecType.VP8
    frame_width := 640
    frame_height := 480
    pending_frames := []
    decode_timestamps := []
    consecutive_error_count := n }

/-- The queued `media::VideoFrame` produced by admitting `keyImg 0`. -/
def kfFrame : VideoFrame := ⟨640, 480, 0, true⟩

/-- The queued `media::VideoFrame` produced by admitting `deltaImg 0`. -/
def dfFrame : VideoFrame := ⟨640, 480, 0, false⟩

/-- Mid-cycle decoder state: counter at `n`, key-frame requirement clear,
and `k + 1` frames queued (one key frame and `k` delta frames). -/
def cyc (n k : Nat) : DecoderState :=
  { afterCycles n with
      key_frame_required := false
      pending_frames := kfFrame :: List.replicate k dfFrame }

/-- One overflow cycle of inputs: a key frame, seven admitted delta
frames, and one more delta frame that arrives at the full queue. -/
def cycleInputs : List EncodedImage := keyImg 0 :: List.replicate 8 (deltaImg 0)

/-! ### Helper lemmas about the admission gate -/

theorem stateAfterGate_pending (s : DecoderState) (img : EncodedImage) :
    (stateAfterGate s img).pending_frames = s.pending_frames := by
  unfold stateAfterGate
  split <;> rfl

theorem stateAfterGate_timestamps (s : DecoderState) (img : EncodedImage) :
    (stateAfterGate s img).decode_timestamps = s.decode_timestamps := by
  unfold stateAfterGate
  split <;> rfl

theorem stateAfterGate_count (s : DecoderState) (img : EncodedImage) :
    (stateAfterGate s img).consecutive_error_count = s.consecutive_error_count := by
  unfold stateAfterGate
  split <;> rfl

theorem stateAfterGate_available (s : DecoderState) (img : EncodedImage) :
    (stateAfterGate s img).media_decoder_available = s.media_decoder_available := by
  unfold stateAfterGate
  split <;> rfl

theorem stateAfterGate_key (s : DecoderState) (img : EncodedImage)
    (hk : img.frameType = FrameType.Key) :
    stateAfterGate s img
      = { s with key_frame_required := false
                 frame_width := img.encodedWidth
                 frame_height := img.encodedHeight } := by
  unfold stateAfterGate
  rw [if_pos hk]

/-- A `Decode` call that passes every early check reduces to the queue
step applied to the post-gate state. -/
theorem decode_gate (s : DecoderState) (img : EncodedImage) (m w : Bool)
    (h : ReachesQueueStep s img m w) :
    Decode s img m w = decodeQueueStep (stateAfterGate s img) img := by
  obtain ⟨h1, h2, h3, h4, h5, h6⟩ := h
  unfold Decode
  rw [if_neg (by simp [h1]), if_neg h2, if_neg (by simp [h3, h4]),
    if_neg (fun hc => hc.2 (h5 hc.1)), if_neg (by simp [h6])]

/-- Effects of the overflow branch (lines 211-227) on the state and the
returned status. -/
theorem decode_overflow (s : DecoderState) (img : EncodedImage) (m w : Bool)
    (h : ReachesQueueStep s img m w)
    (hfull : kMaxPendingFrames ≤ s.pending_frames.length) :
    (Decode s img m w).2.pending_frames = [] ∧
    (Decode s img m w).2.key_frame_required = true ∧
    (Decode s img m w).2.consecutive_error_count = s.consecutive_error_count + 1 ∧
    (Decode s img m w).2.media_decoder_available = s.media_decoder_available ∧
    ((Decode s img m w).1 = Status.Error ∨ (Decode s img m w).1 = Status.FallbackSoftware) := by
  rw [decode_gate s img m w h]
  unfold decodeQueueStep
  rw [if_pos (by rw [stateAfterGate_pending]; exact hfull)]
  by_cases hc : kMaxConsecutiveErrors < (stateAfterGate s img).consecutive_error_count + 1
  · rw [if_pos hc]
    exact ⟨rfl, rfl, by rw [stateAfterGate_count], by rw [stateAfterGate_available], Or.inr rfl⟩
  · rw [if_neg hc]
    exact ⟨rfl, rfl, by rw [stateAfterGate_count], by rw [stateAfterGate_available], Or.inl rfl⟩

/-- No branch of `Decode` can leave more than `kMaxPendingFrames` frames
queued, given the queue was within its bound before the call. -/
theorem decode_pending_bound (s : DecoderState) (img : EncodedImage) (m w : Bool)
    (hlen : s.pending_frames.length ≤ kMaxPendingFrames) :
    (Decode s img m w).2.pending_frames.length ≤ kMaxPendingFrames := by
  unfold Decode decodeQueueStep
  split_ifs <;> simp_all [stateAfterGate_pending] <;> omega

/-- The only branch of `Decode` that returns `OK` is the push (line 228),
which appends the wrapped frame at the back of the queue. -/
theorem decode_ok_append (s : DecoderState) (img : EncodedImage) (m w : Bool)
    (h : (Decode s img m w).1 = Status.Ok) :
    (Decode s img m w).2.pending_frames
      = s.pending_frames ++ [mkEncodedFrame (stateAfterGate s img) img] := by
  unfold Decode decodeQueueStep at h ⊢
  split_ifs at h ⊢ <;> simp_all [stateAfterGate_pending]

/-- When the queue overflows with the counter already at the threshold,
the incremented counter exceeds it: the branch at lines 219-223 fires. -/
theorem decode_fallback_threshold (s : DecoderState) (img : EncodedImage) (m w : Bool)
    (h : ReachesQueueStep s img m w)
    (hfull : kMaxPendingFrames ≤ s.pending_frames.length)
    (hcnt : kMaxConsecutiveErrors ≤ s.consecutive_error_count) :
    (Decode s img m w).1 = Status.FallbackSoftware ∧
    (Decode s img m w).2.decode_timestamps = [] := by
  rw [decode_gate s img m w h]
  unfold decodeQueueStep
  rw [if_pos (by rw [stateAfterGate_pending]; exact hfull),
    if_pos (by rw [stateAfterGate_count]; omega)]
  exact ⟨rfl, rfl⟩

/-- A non-key frame is rejected with `WEBRTC_VIDEO_CODEC_ERROR` (line
163) while the key-frame requirement is armed, leaving the state
untouched. -/
theorem decode_nonkey_rejected (s : DecoderState) (img : EncodedImage) (m w : Bool)
    (h1 : s.media_decoder_available = true)
    (h2 : ¬(s.video_codec_type = VideoCodecType.VP9 ∧ img.spatialIndex.getD 0 > 0))
    (h3 : m = false) (h4 : img.completeFrame = true)
    (h5 : s.key_frame_required = true) (h6 : ¬ img.frameType = FrameType.Key) :
    Decode s img m w = (Status.Error, s) := by
  unfold Decode
  rw [if_neg (by simp [h1]), if_neg h2, if_neg (by simp [h3, h4]), if_pos ⟨h5, h6⟩]

/-- A key frame that reaches the queue step below capacity is admitted:
the requirement clears, the frame size is recorded, and the wrapped
frame is appended. -/
theorem decode_key_admitted (s : DecoderState) (img : EncodedImage) (m w : Bool)
    (h : ReachesQueueStep s img m w) (hk : img.frameType = FrameType.Key)
    (hroom : s.pending_frames.length < kMaxPendingFrames) :
    Decode s img m w = (Status.Ok,
      { s with key_frame_required := false
               frame_width := img.encodedWidth
               frame_height := img.encodedHeight
               pending_frames := s.pending_frames ++
                 [{ width := img.encodedWidth, height := img.encodedHeight,
                    timestamp := img.timestamp, keyFrame := true }] }) := by
  rw [decode_gate s img m w h]
  unfold decodeQueueStep
  rw [if_neg (by rw [stateAfterGate_pending]; omega)]
  rw [stateAfterGate_key s img hk]
  simp [mkEncodedFrame, hk]

/-! ### Helper lemmas about the drain and the result sink -/

theorem record_contains (hist : List Nat) (ts : Nat) :
    (recordTimestamp hist ts).contains ts = true := by
  simp [recordTimestamp]

theorem sink_discards (s : DecoderState) (f : VideoFrame)
    (h : s.decode_timestamps.contains f.timestamp = false) :
    ReturnEncodedFrame s f = (s, none) := by
  unfold ReturnEncodedFrame
  rw [h]
  rfl

theorem sink_delivers (s : DecoderState) (f : VideoFrame)
    (h : s.decode_timestamps.contains f.timestamp = true) :
    ReturnEncodedFrame s f
      = ({ s with consecutive_error_count := 0 }, some f.timestamp) := by
  unfold ReturnEncodedFrame
  rw [h]
  rfl

/-- Inside the drain loop, the just-recorded timestamp is always found,
so the frame is always delivered and the counter reset. -/
theorem drainStep_eq (s : DecoderState) (f : VideoFrame) :
    drainStep s f =
      ({ s with decode_timestamps := recordTimestamp s.decode_timestamps f.timestamp,
                consecutive_error_count := 0 }, some f.timestamp) := by
  unfold drainStep
  rw [sink_delivers _ _ (record_contains _ _)]

/-- Joint characterisation of the drain loop: it delivers exactly the
drained frames' timestamps in order, touches neither the queue nor the
flags, folds all timestamps into the history, and zeroes the counter as
soon as it processes at least one frame. -/
theorem drainLoop_spec (frames : List VideoFrame) : ∀ s : DecoderState,
    (drainLoop s frames).2 = frames.map VideoFrame.timestamp ∧
    (drainLoop s frames).1.pending_frames = s.pending_frames ∧
    (drainLoop s frames).1.decode_timestamps
      = (frames.map VideoFrame.timestamp).foldl recordTimestamp s.decode_timestamps ∧
    (drainLoop s frames).1.consecutive_error_count
      = (if frames = [] then s.consecutive_error_count else 0) ∧
    (drainLoop s frames).1.media_decoder_available = s.media_decoder_available ∧
    (drainLoop s frames).1.key_frame_required = s.key_frame_required := by
  induction frames with
  | nil => exact fun s => ⟨rfl, rfl, rfl, rfl, rfl, rfl⟩
  | cons f rest ih =>
    intro s
    obtain ⟨i1, i2, i3, i4, i5, i6⟩ :=
      ih ({ s with decode_timestamps := recordTimestamp s.decode_timestamps f.timestamp,
                   consecutive_error_count := 0 })
    simp only [drainLoop, drainStep_eq]
    refine ⟨by simpa using i1, i2, by simpa using i3, ?_, i5, i6⟩
    rw [i4]
    split <;> simp

theorem drain_delivers (s : DecoderState) :
    (DecodeOnMediaThread s).2 = s.pending_frames.map VideoFrame.timestamp := by
  unfold DecodeOnMediaThread
  exact (drainLoop_spec s.pending_frames _).1

theorem drain_empties (s : DecoderState) :
    (DecodeOnMediaThread s).1.pending_frames = [] := by
  unfold DecodeOnMediaThread
  exact (drainLoop_spec s.pending_frames _).2.1

theorem drain_history (s : DecoderState) :
    (DecodeOnMediaThread s).1.decode_timestamps
      = (s.pending_frames.map VideoFrame.timestamp).foldl recordTimestamp
          s.decode_timestamps := by
  unfold DecodeOnMediaThread
  exact (drainLoop_spec s.pending_frames _).2.2.1

theorem drain_resets_count (s : DecoderState) (h : ¬ s.pending_frames = []) :
    (DecodeOnMediaThread s).1.consecutive_error_count = 0 := by
  unfold DecodeOnMediaThread
  rw [(drainLoop_spec s.pending_frames _).2.2.2.1, if_neg h]

/-! ### Helper lemmas about the bounded timestamp history -/

theorem evictOldest_length (hist : List Nat) :
    (evictOldest hist).length ≤ kMaxDecodeHistory - 1 := by
  induction hist with
  | nil => simp [evictOldest]
  | cons t rest ih =>
    unfold evictOldest
    split
    · exact ih
    · simp only [List.length_cons] at *
      omega

theorem evictOldest_suffix (hist : List Nat) : List.IsSuffix (evictOldest hist) hist := by
  induction hist with
  | nil => exact List.suffix_refl _
  | cons t rest ih =>
    unfold evictOldest
    split
    · exact ih.trans (List.suffix_cons t rest)
    · exact List.suffix_refl _

theorem recordTimestamp_length (hist : List Nat) (ts : Nat) :
    (recordTimestamp hist ts).length ≤ kMaxDecodeHistory := by
  have h := evictOldest_length hist
  simp only [recordTimestamp, List.length_append, List.length_singleton]
  have hpos : (0 : Nat) < kMaxDecodeHistory := by decide
  omega

theorem foldl_record_length (l : List Nat) : ∀ init : List Nat,
    init.length ≤ kMaxDecodeHistory →
    (l.foldl recordTimestamp init).length ≤ kMaxDecodeHistory := by
  induction l with
  | nil => exact fun init h => h
  | cons t rest ih =>
    intro init h
    exact ih _ (recordTimestamp_length init t)

theorem decode_history_bound (s : DecoderState) (img : EncodedImage) (m w : Bool)
    (h : s.decode_timestamps.length ≤ kMaxDecodeHistory) :
    (Decode s img m w).2.decode_timestamps.length ≤ kMaxDecodeHistory := by
  unfold Decode decodeQueueStep
  split_ifs <;> simp_all [stateAfterGate_timestamps]

/-! ### Concrete executions: repeated overflow cycles -/

theorem init_key_step :
    (Decode postInitState (keyImg 0) false true).2 = cyc 0 0 := rfl

theorem key_step (n : Nat) :
    (Decode (afterCycles n) (keyImg 0) false true).2 = cyc n 0 := rfl

theorem delta_step0 (n : Nat) : (Decode (cyc n 0) (deltaImg 0) false true).2 = cyc n 1 := rfl

theorem delta_step1 (n : Nat) : (Decode (cyc n 1) (deltaImg 0) false true).2 = cyc n 2 := rfl

theorem delta_step2 (n : Nat) : (Decode (cyc n 2) (deltaImg 0) false true).2 = cyc n 3 := rfl

theorem delta_step3 (n : Nat) : (Decode (cyc n 3) (deltaImg 0) false true).2 = cyc n 4 := rfl

theorem delta_step4 (n : Nat) : (Decode (cyc n 4) (deltaImg 0) false true).2 = cyc n 5 := rfl

theorem delta_step5 (n : Nat) : (Decode (cyc n 5) (deltaImg 0) false true).2 = cyc n 6 := rfl

theorem delta_step6 (n : Nat) : (Decode (cyc n 6) (deltaImg 0) false true).2 = cyc n 7 := rfl

/-- The ninth input of a cycle hits the full queue: regardless of the
counter value, the resulting state is the next cycle-start state. -/
theorem overflow_step (n : Nat) :
    (Decode (cyc n 7) (deltaImg 0) false true).2 = afterCycles (n + 1) := by
  show (if kMaxConsecutiveErrors < n + 1
        then (Status.FallbackSoftware, afterCycles (n + 1))
        else (Status.Error, afterCycles (n + 1)) : Status × DecoderState).2
      = afterCycles (n + 1)
  split <;> rfl

theorem run_cycle (n : Nat) :
    runDecodes (afterCycles n) cycleInputs = afterCycles (n + 1) := by
  show runDecodes (afterCycles n)
      [keyImg 0, deltaImg 0, deltaImg 0, deltaImg 0, deltaImg 0, deltaImg 0, deltaImg 0,
       deltaImg 0, deltaImg 0] = afterCycles (n + 1)
  simp only [runDecodes, List.foldl_cons, List.foldl_nil, key_step, delta_step0, delta_step1,
    delta_step2, delta_step3, delta_step4, delta_step5, delta_step6, overflow_step]

theorem first_cycle : runDecodes postInitState cycleInputs = afterCycles 1 := by
  show runDecodes postInitState
      [keyImg 0, deltaImg 0, deltaImg 0, deltaImg 0, deltaImg 0, deltaImg 0, deltaImg 0,
       deltaImg 0, deltaImg 0] = afterCycles 1
  simp only [runDecodes, List.foldl_cons, List.foldl_nil, init_key_step, delta_step0, delta_step1,
    delta_step2, delta_step3, delta_step4, delta_step5, delta_step6, overflow_step 0]

theorem runDecodes_append (s : DecoderState) (a b : List EncodedImage) :
    runDecodes s (a ++ b) = runDecodes (runDecodes s a) b := by
  simp [runDecodes, List.foldl_append]

theorem run_cycles_from (j m : Nat) :
    runDecodes (afterCycles m) (List.replicate j cycleInputs).flatten
      = afterCycles (m + j) := by
  induction j generalizing m with
  | zero => rfl
  | succ k ih =>
    rw [List.replicate_succ, List.flatten_cons, runDecodes_append, run_cycle, ih]
    congr 1
    omega

/-- Running `n + 1` full overflow cycles from the initialized decoder
fires the overflow branch `n + 1` times with no delivery in between and
leaves the counter at `n + 1`. -/
theorem run_cycles_total (n : Nat) :
    runDecodes postInitState (List.replicate (n + 1) cycleInputs).flatten
      = afterCycles (n + 1) := by
  rw [List.replicate_succ, List.flatten_cons, runDecodes_append, first_cycle, run_cycles_from]
  congr 1
  omega

/-- Refilling the queue from a cycle-start state with counter 60: one key
frame and seven delta frames are all admitted. -/
theorem refill :
    runDecodes (afterCycles 60) (keyImg 0 :: List.replicate 7 (deltaImg 0)) = cyc 60 7 := by
  show runDecodes (afterCycles 60)
      [keyImg 0, deltaImg 0, deltaImg 0, deltaImg 0, deltaImg 0, deltaImg 0, deltaImg 0,
       deltaImg 0] = cyc 60 7
  simp only [runDecodes, List.foldl_cons, List.foldl_nil, key_step, delta_step0, delta_step1,
    delta_step2, delta_step3, delta_step4, delta_step5, delta_step6]

/-- Filling the queue from the freshly initialized decoder: one key frame
and seven delta frames are all admitted. -/
theorem refill0 :
    runDecodes postInitState (keyImg 0 :: List.replicate 7 (deltaImg 0)) = cyc 0 7 := by
  show runDecodes postInitState
      [keyImg 0, deltaImg 0, deltaImg 0, deltaImg 0, deltaImg 0, deltaImg 0, deltaImg 0,
       deltaImg 0] = cyc 0 7
  simp only [runDecodes, List.foldl_cons, List.foldl_nil, init_key_step, delta_step0, delta_step1,
    delta_step2, delta_step3, delta_step4, delta_step5, delta_step6]

/-! ### The claims -/

/-- Claim C1, counterexample. Sixty full overflow cycles from the
initialized decoder bring the consecutive-error counter exactly to
`kMaxConsecutiveErrors` with no delivery in between; the sixty-first
firing of the overflow branch (after refilling the queue with a key frame
and seven delta frames) returns `FALLBACK_SOFTWARE` and clears the
timestamp history — but no persistent fallback state is recorded
(`media_decoder_available` is still true), and the very next `Decode`
call carrying a key frame is admitted and returns `OK`, contradicting
"every subsequent Decode call, regardless of the frame it carries,
immediately returns FallbackToSoftware". -/
theorem claim_C1_counterexample :
    runDecodes postInitState (List.replicate 60 cycleInputs).flatten = afterCycles 60 ∧
    (afterCycles 60).consecutive_error_count = kMaxConsecutiveErrors ∧
    Decode (runDecodes (afterCycles 60) (keyImg 0 :: List.replicate 7 (deltaImg 0)))
        (deltaImg 0) false true = (Status.FallbackSoftware, afterCycles 61) ∧
    (afterCycles 61).decode_timestamps = [] ∧
    (afterCycles 61).media_decoder_available = true ∧
    (Decode (afterCycles 61) (keyImg 0) false true).1 = Status.Ok := by
  have h60 := run_cycles_total 59
  norm_num at h60
  refine ⟨h60, by decide, ?_, by decide, by decide, by decide⟩
  rw [refill]
  decide

/-- Claim C1, amended. Once the consecutive-error counter has reached
`kMaxConsecutiveErrors`, any `Decode` call that reaches the queue step
with the queue full returns `FALLBACK_SOFTWARE`, clears the timestamp
history and re-arms the key-frame requirement; no persistent fallback
flag is set (`media_decoder_available` is unchanged), so a later call
that does not overflow can still succeed. -/
theorem claim_C1_escalation (s : DecoderState) (img : EncodedImage) (m w : Bool)
    (h : ReachesQueueStep s img m w)
    (hfull : kMaxPendingFrames ≤ s.pending_frames.length)
    (hcnt : kMaxConsecutiveErrors ≤ s.consecutive_error_count) :
    (Decode s img m w).1 = Status.FallbackSoftware ∧
    (Decode s img m w).2.decode_timestamps = [] ∧
    (Decode s img m w).2.key_frame_required = true ∧
    (Decode s img m w).2.media_decoder_available = s.media_decoder_available := by
  obtain ⟨f1, f2⟩ := decode_fallback_threshold s img m w h hfull hcnt
  obtain ⟨o1, o2, o3, o4, o5⟩ := decode_overflow s img m w h hfull
  exact ⟨f1, f2, o2, o4⟩

/-- Witness for `claim_C1_escalation` at the concrete full-queue state
with the counter at the threshold. -/
theorem claim_C1_escalation_witness :
    (Decode (cyc 60 7) (deltaImg 0) false true).1 = Status.FallbackSoftware ∧
    (Decode (cyc 60 7) (deltaImg 0) false true).2.decode_timestamps = [] ∧
    (Decode (cyc 60 7) (deltaImg 0) false true).2.key_frame_required = true ∧
    (Decode (cyc 60 7) (deltaImg 0) false true).2.media_decoder_available
      = (cyc 60 7).media_decoder_available :=
  claim_C1_escalation (cyc 60 7) (deltaImg 0) false true (by decide) (by decide) (by decide)

/-- Claim C2: a `Decode` call that reaches the push step with the queue
already holding `kMaxPendingFrames` frames discards the whole queue (the
triggering frame included), re-arms the key-frame requirement, increments
the consecutive-error counter by one, and reports exactly one overflow
status (`ERROR`, or `FALLBACK_SOFTWARE` past the threshold); and no
`Decode` call can push the queue length beyond `kMaxPendingFrames`. -/
theorem claim_C2_overflow :
    (∀ (s : DecoderState) (img : EncodedImage) (m w : Bool),
      ReachesQueueStep s img m w →
      kMaxPendingFrames ≤ s.pending_frames.length →
      (Decode s img m w).2.pending_frames = [] ∧
      (Decode s img m w).2.key_frame_required = true ∧
      (Decode s img m w).2.consecutive_error_count = s.consecutive_error_count + 1 ∧
      ((Decode s img m w).1 = Status.Error ∨
       (Decode s img m w).1 = Status.FallbackSoftware)) ∧
    (∀ (s : DecoderState) (img : EncodedImage) (m w : Bool),
      s.pending_frames.length ≤ kMaxPendingFrames →
      (Decode s img m w).2.pending_frames.length ≤ kMaxPendingFrames) := by
  constructor
  · intro s img m w h hfull
    obtain ⟨o1, o2, o3, o4, o5⟩ := decode_overflow s img m w h hfull
    exact ⟨o1, o2, o3, o5⟩
  · intro s img m w hlen
    exact decode_pending_bound s img m w hlen

/-- Witness for `claim_C2_overflow` at a concrete full queue (overflow
effects) and at a concrete partially filled queue (bound). -/
theorem claim_C2_overflow_witness :
    ((Decode (cyc 0 7) (deltaImg 9) false true).2.pending_frames = [] ∧
     (Decode (cyc 0 7) (deltaImg 9) false true).2.key_frame_required = true ∧
     (Decode (cyc 0 7) (deltaImg 9) false true).2.consecutive_error_count
       = (cyc 0 7).consecutive_error_count + 1 ∧
     ((Decode (cyc 0 7) (deltaImg 9) false true).1 = Status.Error ∨
      (Decode (cyc 0 7) (deltaImg 9) false true).1 = Status.FallbackSoftware)) ∧
    (Decode (cyc 0 3) (deltaImg 9) false true).2.pending_frames.length
      ≤ kMaxPendingFrames :=
  ⟨claim_C2_overflow.1 (cyc 0 7) (deltaImg 9) false true (by decide) (by decide),
   claim_C2_overflow.2 (cyc 0 3) (deltaImg 9) false true (by decide)⟩

/-- Claim C3, counterexample. Fill the queue from the initialized decoder
(one key frame, seven delta frames), then let the media player post a
key-frame-request notification so the requirement is armed while the
queue is full. The first subsequent key frame is NOT admitted: it hits
the overflow branch, the queue is cleared, the requirement stays armed
and the call returns `ERROR`, contradicting "the first subsequent key
frame ... is admitted". -/
theorem claim_C3_counterexample :
    runDecodes postInitState (keyImg 0 :: List.replicate 7 (deltaImg 0)) = cyc 0 7 ∧
    (OnMediaPlayerNotifyCb (cyc 0 7) StatusType.KeyFrameRequest).key_frame_required = true ∧
    (OnMediaPlayerNotifyCb (cyc 0 7) StatusType.KeyFrameRequest).pending_frames.length
      = kMaxPendingFrames ∧
    Decode (OnMediaPlayerNotifyCb (cyc 0 7) StatusType.KeyFrameRequest) (keyImg 9) false true
      = (Status.Error,
         { media_decoder_available := true
           key_frame_required := true
           video_codec_type := VideoCodecType.VP8
           frame_width := 640
           frame_height := 480
           pending_frames := []
           decode_timestamps := []
           consecutive_error_count := 1 }) :=
  ⟨refill0, by decide, by decide, by decide⟩

/-- Claim C3, amended. While the key-frame requirement is armed, every
`Decode` call that passes the earlier checks (hardware available, not the
VP9 multi-layer case, frame present and complete) and carries a non-key
frame is rejected with `ERROR` and the state is left untouched; a key
frame that reaches the queue step clears the requirement, records its
coded width and height as the active frame size and — provided the queue
is below capacity — is admitted. -/
theorem claim_C3_key_frame_gating :
    (∀ (s : DecoderState) (img : EncodedImage) (m w : Bool),
      s.media_decoder_available = true →
      ¬(s.video_codec_type = VideoCodecType.VP9 ∧ img.spatialIndex.getD 0 > 0) →
      m = false → img.completeFrame = true →
      s.key_frame_required = true → ¬ img.frameType = FrameType.Key →
      Decode s img m w = (Status.Error, s)) ∧
    (∀ (s : DecoderState) (img : EncodedImage) (m w : Bool),
      ReachesQueueStep s img m w → img.frameType = FrameType.Key →
      s.pending_frames.length < kMaxPendingFrames →
      Decode s img m w = (Status.Ok,
        { s with key_frame_required := false
                 frame_width := img.encodedWidth
                 frame_height := img.encodedHeight
                 pending_frames := s.pending_frames ++
                   [{ width := img.encodedWidth, height := img.encodedHeight,
                      timestamp := img.timestamp, keyFrame := true }] })) :=
  ⟨decode_nonkey_rejected, decode_key_admitted⟩

/-- Witness for `claim_C3_key_frame_gating`: from the armed cycle-start
state, a delta frame is rejected without a state change and a key frame
is admitted. -/
theorem claim_C3_key_frame_gating_witness :
    Decode (afterCycles 0) (deltaImg 3) false true = (Status.Error, afterCycles 0) ∧
    Decode (afterCycles 0) (keyImg 3) false true = (Status.Ok,
      { afterCycles 0 with
          key_frame_required := false
          frame_width := 640
          frame_height := 480
          pending_frames := [{ width := 640, height := 480, timestamp := 3,
                               keyFrame := true }] }) :=
  ⟨claim_C3_key_frame_gating.1 (afterCycles 0) (deltaImg 3) false true rfl (by decide)
     rfl rfl rfl (by decide),
   claim_C3_key_frame_gating.2 (afterCycles 0) (keyImg 3) false true (by decide) rfl
     (by decide)⟩

/-- Claim C4: the drain hands frames to the pipeline in exactly the
admission order. Within a single drain, the delivered timestamps are the
queued frames' timestamps in queue order, the queue is left empty, and
each timestamp is folded into the history as part of its frame's
processing; and every `Decode` call that returns `OK` appends its frame
at the back of the queue, so admission order equals queue order across
successive drains. -/
theorem claim_C4_fifo :
    (∀ s : DecoderState,
      (DecodeOnMediaThread s).2 = s.pending_frames.map VideoFrame.timestamp) ∧
    (∀ s : DecoderState, (DecodeOnMediaThread s).1.pending_frames = []) ∧
    (∀ s : DecoderState,
      (DecodeOnMediaThread s).1.decode_timestamps
        = (s.pending_frames.map VideoFrame.timestamp).foldl recordTimestamp
            s.decode_timestamps) ∧
    (∀ (s : DecoderState) (img : EncodedImage) (m w : Bool),
      (Decode s img m w).1 = Status.Ok →
      (Decode s img m w).2.pending_frames
        = s.pending_frames ++ [mkEncodedFrame (stateAfterGate s img) img]) :=
  ⟨drain_delivers, drain_empties, drain_history, decode_ok_append⟩

/-- Witness for `claim_C4_fifo`: a two-frame queue drains in order, and a
concrete `OK` decode appends at the back. -/
theorem claim_C4_fifo_witness :
    (DecodeOnMediaThread (cyc 0 1)).2 = [0, 0] ∧
    (Decode (cyc 0 0) (deltaImg 5) false true).2.pending_frames
      = [kfFrame, { width := 640, height := 480, timestamp := 5, keyFrame := false }] := by
  constructor
  · rw [claim_C4_fifo.1 (cyc 0 1)]
    decide
  · rw [claim_C4_fifo.2.2.2 (cyc 0 0) (deltaImg 5) false true (by decide)]
    decide

/-- Claim C5: the result sink discards a frame whose timestamp is not in
the history (no callback, state untouched), and delivers a frame whose
timestamp is present, resetting the consecutive-error counter to zero. -/
theorem claim_C5_result_sink : ∀ (s : DecoderState) (f : VideoFrame),
    (s.decode_timestamps.contains f.timestamp = false →
      ReturnEncodedFrame s f = (s, none)) ∧
    (s.decode_timestamps.contains f.timestamp = true →
      ReturnEncodedFrame s f
        = ({ s with consecutive_error_count := 0 }, some f.timestamp)) :=
  fun s f => ⟨sink_discards s f, sink_delivers s f⟩

/-- Witness for `claim_C5_result_sink`: with history `[7]`, a frame at
timestamp 9 is discarded and a frame at timestamp 7 is delivered. -/
theorem claim_C5_result_sink_witness :
    ReturnEncodedFrame { afterCycles 4 with decode_timestamps := [7] } ⟨640, 480, 9, false⟩
      = ({ afterCycles 4 with decode_timestamps := [7] }, none) ∧
    ReturnEncodedFrame { afterCycles 4 with decode_timestamps := [7] } ⟨640, 480, 7, false⟩
      = ({ afterCycles 4 with decode_timestamps := [7], consecutive_error_count := 0 },
         some 7) :=
  ⟨(claim_C5_result_sink { afterCycles 4 with decode_timestamps := [7] }
      ⟨640, 480, 9, false⟩).1 (by decide),
   (claim_C5_result_sink { afterCycles 4 with decode_timestamps := [7] }
      ⟨640, 480, 7, false⟩).2 (by decide)⟩

/-- Claim C6, counterexample. Reach a state with the consecutive-error
counter at 5 (five overflow cycles from the initialized decoder); calling
`Release` clears the queue and the history but leaves the counter at 5,
contradicting "resets counters". -/
theorem claim_C6_counterexample :
    runDecodes postInitState (List.replicate 5 cycleInputs).flatten = afterCycles 5 ∧
    Release (afterCycles 5) = (Status.Ok,
      { afterCycles 5 with pending_frames := [], decode_timestamps := [] }) ∧
    (Release (afterCycles 5)).2.consecutive_error_count = 5 ∧
    ¬ (Release (afterCycles 5)).2.consecutive_error_count = 0 := by
  have h5 := run_cycles_total 4
  norm_num at h5
  exact ⟨h5, by decide, by decide, by decide⟩

/-- Claim C6, amended. `Release` clears the pending-frame queue and the
timestamp history from any state, and leaves every other field — in
particular the consecutive-error counter — unchanged; it is idempotent: a
second call finds the queue and history already empty, changes nothing,
and returns the same status as the first call. -/
theorem claim_C6_release : ∀ s : DecoderState,
    (Release s).2.pending_frames = [] ∧
    (Release s).2.decode_timestamps = [] ∧
    (Release s).2.media_decoder_available = s.media_decoder_available ∧
    (Release s).2.key_frame_required = s.key_frame_required ∧
    (Release s).2.video_codec_type = s.video_codec_type ∧
    (Release s).2.consecutive_error_count = s.consecutive_error_count ∧
    (Release s).1 = (if s.media_decoder_available = true then Status.Ok
                     else Status.Uninitialized) ∧
    Release (Release s).2 = Release s :=
  fun _ => ⟨rfl, rfl, rfl, rfl, rfl, rfl, rfl, rfl⟩

/-- Claim C7: `InitDecode` returns `ERR_PARAMETER` exactly on null codec
settings, leaving the state untouched; otherwise it arms the key-frame
requirement, records the codec type, and returns `OK` precisely when the
hardware path is available (`media_decoder_available_`), returning
`UNINITIALIZED` otherwise. -/
theorem claim_C7_initdecode : ∀ (s : DecoderState) (cs : WebrtcVideoCodec) (cores : Nat),
    InitDecode s none cores = (Status.ErrParameter, s) ∧
    ¬ (InitDecode s (some cs) cores).1 = Status.ErrParameter ∧
    (InitDecode s (some cs) cores).2.key_frame_required = true ∧
    (InitDecode s (some cs) cores).2.video_codec_type = cs.codecType ∧
    ((InitDecode s (some cs) cores).1 = Status.Ok ↔ s.media_decoder_available = true) ∧
    (s.media_decoder_available = false →
      (InitDecode s (some cs) cores).1 = Status.Uninitialized) := by
  intro s cs cores
  refine ⟨rfl, ?_, rfl, rfl, ?_, ?_⟩ <;>
    · unfold InitDecode
      cases h : s.media_decoder_available <;> simp [h]

/-- Witness for `claim_C7_initdecode`: concrete null, available, and
unavailable cases. -/
theorem claim_C7_initdecode_witness :
    InitDecode (afterCycles 0) none 1 = (Status.ErrParameter, afterCycles 0) ∧
    (InitDecode (afterCycles 0) (some ⟨VideoCodecType.H264⟩) 1).1 = Status.Ok ∧
    (InitDecode { afterCycles 0 with media_decoder_available := false }
        (some ⟨VideoCodecType.H264⟩) 1).1 = Status.Uninitialized :=
  ⟨(claim_C7_initdecode (afterCycles 0) ⟨VideoCodecType.H264⟩ 1).1,
   (claim_C7_initdecode (afterCycles 0) ⟨VideoCodecType.H264⟩ 1).2.2.2.2.1.mpr rfl,
   (claim_C7_initdecode { afterCycles 0 with media_decoder_available := false }
      ⟨VideoCodecType.H264⟩ 1).2.2.2.2.2 rfl⟩

/-- Claim C8: the timestamp history is appended to with oldest-first
eviction (recording is exactly evict-then-append, eviction keeps only a
suffix), its size never exceeds `kMaxDecodeHistory` after a record, and
every operation of the decoder preserves the size bound. -/
theorem claim_C8_history_bound :
    (∀ (hist : List Nat) (ts : Nat), recordTimestamp hist ts = evictOldest hist ++ [ts]) ∧
    (∀ hist : List Nat, List.IsSuffix (evictOldest hist) hist) ∧
    (∀ (hist : List Nat) (ts : Nat),
      (recordTimestamp hist ts).length ≤ kMaxDecodeHistory) ∧
    (∀ s : DecoderState, s.decode_timestamps.length ≤ kMaxDecodeHistory →
      (∀ (img : EncodedImage) (m w : Bool),
        (Decode s img m w).2.decode_timestamps.length ≤ kMaxDecodeHistory) ∧
      (DecodeOnMediaThread s).1.decode_timestamps.length ≤ kMaxDecodeHistory ∧
      (Release s).2.decode_timestamps.length ≤ kMaxDecodeHistory ∧
      (∀ f : VideoFrame,
        (ReturnEncodedFrame s f).1.decode_timestamps.length ≤ kMaxDecodeHistory) ∧
      (∀ (cs : Option WebrtcVideoCodec) (cores : Nat),
        (InitDecode s cs cores).2.decode_timestamps.length ≤ kMaxDecodeHistory) ∧
      (∀ t : StatusType,
        (OnMediaPlayerNotifyCb s t).decode_timestamps.length ≤ kMaxDecodeHistory)) := by
  refine ⟨fun hist ts => rfl, evictOldest_suffix, recordTimestamp_length, ?_⟩
  intro s h
  refine ⟨fun img m w => decode_history_bound s img m w h, ?_, ?_, ?_, ?_, ?_⟩
  · rw [drain_history s]
    exact foldl_record_length _ _ h
  · exact Nat.zero_le _
  · intro f
    unfold ReturnEncodedFrame
    split <;> exact h
  · intro cs cores
    cases cs <;> exact h
  · intro t
    cases t <;> exact h

/-- Witness for `claim_C8_history_bound` at concrete history and states. -/
theorem claim_C8_history_bound_witness :
    recordTimestamp [1, 2] 3 = evictOldest [1, 2] ++ [3] ∧
    List.IsSuffix (evictOldest [1, 2]) [1, 2] ∧
    (recordTimestamp [1, 2] 3).length ≤ kMaxDecodeHistory ∧
    (Decode (cyc 0 0) (deltaImg 5) false true).2.decode_timestamps.length
      ≤ kMaxDecodeHistory ∧
    (DecodeOnMediaThread (cyc 0 0)).1.decode_timestamps.length ≤ kMaxDecodeHistory :=
  ⟨claim_C8_history_bound.1 [1, 2] 3,
   claim_C8_history_bound.2.1 [1, 2],
   claim_C8_history_bound.2.2.1 [1, 2] 3,
   (claim_C8_history_bound.2.2.2 (cyc 0 0) (by decide)).1 (deltaImg 5) false true,
   (claim_C8_history_bound.2.2.2 (cyc 0 0) (by decide)).2.1⟩

/-- Claim C9: the discard branch of the result sink is unreachable during
a drain. A timestamp just recorded is always found by the membership
test, so every drained frame is delivered to the callback (the delivered
list is the whole queue, in order) and the consecutive-error counter is
zero after draining at least one frame. -/
theorem claim_C9_drain_delivery :
    (∀ (hist : List Nat) (ts : Nat), (recordTimestamp hist ts).contains ts = true) ∧
    (∀ s : DecoderState,
      (DecodeOnMediaThread s).2 = s.pending_frames.map VideoFrame.timestamp ∧
      (¬ s.pending_frames = [] →
        (DecodeOnMediaThread s).1.consecutive_error_count = 0)) :=
  ⟨record_contains, fun s => ⟨drain_delivers s, drain_resets_count s⟩⟩

/-- Witness for `claim_C9_drain_delivery` at a concrete history and a
concrete two-frame queue. -/
theorem claim_C9_drain_delivery_witness :
    (recordTimestamp [1, 2] 3).contains 3 = true ∧
    (DecodeOnMediaThread (cyc 4 1)).1.consecutive_error_count = 0 :=
  ⟨claim_C9_drain_delivery.1 [1, 2] 3,
   (claim_C9_drain_delivery.2 (cyc 4 1)).2 (by decide)⟩

/-- Claim C10: `InitDecode` with a null codec-settings pointer returns
`ERR_PARAMETER` and mutates no state: the returned state is exactly the
input state, every field included. -/
theorem claim_C10_initdecode_null (s : DecoderState) (cores : Nat) :
    InitDecode s none cores = (Status.ErrParameter, s) := rfl

end WebRtcPassThrough
